import Mathlib

/-!
# Vulkray frame-synchronization and swap-chain lifecycle: a shallow embedding

This file embeds the frame loop and swap-chain rebuild logic of the Vulkray
engine (`src/src/vulkan/Vulkan.cxx`, plus the earlier revision of the same
file and `ImageViews.cxx` shipped in the repository) as executable Lean
definitions, and proves the specified properties about them.

Modelling conventions:
* Vulkan handles are natural numbers; `Option ℕ` models a handle slot where
  `none` stands for `VK_NULL_HANDLE`.
* GPU/driver nondeterminism (the `VkResult` of acquire/present, the image
  index written by `vkAcquireNextImageKHR`, the framebuffer size reported by
  `glfwGetFramebufferSize`, the image count chosen at swap-chain creation) is
  supplied by an environment record.
* Every Vulkan API call the code performs is recorded in an event trace, so
  ordering properties ("X happens before Y", "no submission happens") are
  statements about the trace.
* `throw std::runtime_error` is modelled by the `Outcome.fatal` result; the
  unbounded un-minimize poll loop is modelled with fuel, exhaustion giving
  `Outcome.blocked` (the loop is still spinning, nothing further executed).
-/

namespace Vulkray

/-- The subset of `VkResult` status codes distinguished by the code:
`VK_SUCCESS`, `VK_SUBOPTIMAL_KHR`, `VK_ERROR_OUT_OF_DATE_KHR`, and any other
(error) status such as `VK_ERROR_DEVICE_LOST`. -/
inductive VkResult where
  | success
  | suboptimalKHR
  | errorOutOfDateKHR
  | errorOther
deriving DecidableEq, Repr

/-- One trace event per Vulkan/GLFW call performed by the embedded code. -/
inductive Event where
  | waitFence (slot : ℕ)
  | resetFence (slot : ℕ)
  | acquireImage (slot : ℕ) (r : VkResult)
  | resetCmdBuffer (slot : ℕ)
  | recordCommands (slot : ℕ) (imageIndex : Option ℕ)
  | submitCmdBuffer (slot : ℕ)
  | queuePresent (imageIndex : Option ℕ) (r : VkResult)
  | pollFramebufferSize (width height : ℕ)
  | deviceWaitIdle
  | destroyFramebuffer (h : Option ℕ)
  | destroyImageView (h : Option ℕ)
  | destroySwapchainKHR (h : Option ℕ)
  | createSwapchain (imageCount : ℕ)
  | createImageViews (count : ℕ)
  | createFrameBuffers (count : ℕ)
deriving DecidableEq, Repr

/-- The mutable state of the `Vulkan` class that the embedded functions touch.
Field names follow the C++ members. -/
structure VulkanState where
  MAX_FRAMES_IN_FLIGHT : ℕ
  frameIndex : ℕ
  framebufferResized : Bool
  swapChain : Option ℕ
  swapChainImages : List ℕ
  swapChainImageViews : List (Option ℕ)
  swapChainFrameBuffers : List (Option ℕ)
  renderPass : ℕ
  graphicsPipeline : ℕ
  pipelineLayout : ℕ
  graphicsCommandPool : ℕ
  transferCommandPool : ℕ
  nextHandle : ℕ
deriving DecidableEq, Repr

/-- Result of running a piece of the frame loop: normal return with the new
state, a thrown `std::runtime_error`, or still blocked inside the
un-minimize poll loop (fuel exhausted). -/
inductive Outcome where
  | ok (s : VulkanState)
  | fatal (msg : String)
  | blocked
deriving DecidableEq, Repr

/-- Driver/window inputs consumed by one frame. -/
structure FrameEnv where
  acquireResult : VkResult
  acquireImageIndex : ℕ
  presentResult : VkResult

/-- Driver/window inputs consumed by one swap-chain rebuild: the framebuffer
size reported at the k-th `glfwGetFramebufferSize` poll, the poll fuel, and
the image count the driver grants the new swap chain. -/
structure RebuildEnv where
  sizes : ℕ → ℕ × ℕ
  pollFuel : ℕ
  newImageCount : ℕ

/-- The `glfwGetFramebufferSize` poll loop of `Vulkan::recreateSwapChain`
(the first query runs unconditionally; the loop re-queries until both
dimensions are nonzero). Returns the index of the succeeding poll, or `none`
if the window stayed minimized for the whole fuel budget. -/
def pollLoop (sizes : ℕ → ℕ × ℕ) : ℕ → ℕ → Option ℕ × List Event
  | 0, k =>
    if (sizes k).1 = 0 ∨ (sizes k).2 = 0 then
      (none, [Event.pollFramebufferSize (sizes k).1 (sizes k).2])
    else (some k, [Event.pollFramebufferSize (sizes k).1 (sizes k).2])
  | fuel + 1, k =>
    if (sizes k).1 = 0 ∨ (sizes k).2 = 0 then
      ((pollLoop sizes fuel (k + 1)).1,
        Event.pollFramebufferSize (sizes k).1 (sizes k).2 :: (pollLoop sizes fuel (k + 1)).2)
    else (some k, [Event.pollFramebufferSize (sizes k).1 (sizes k).2])

/-- Modelled from the spec: `SwapChain::createSwapChain` is not among the
given sources; per §4.2 it selects an image count from capability negotiation
(supplied here by the environment) and allocates the image set, storing the
chain handle and images into the `Vulkan` state. -/
def createSwapChain (imageCount : ℕ) (s : VulkanState) : VulkanState × List Event :=
  ({ s with
      swapChain := some s.nextHandle
      swapChainImages := (List.range imageCount).map (fun i => s.nextHandle + 1 + i)
      nextHandle := s.nextHandle + 1 + imageCount },
   [Event.createSwapchain imageCount])

/-- `ImageViews::createImageViews` / the `ImageViews` constructor
(`ImageViews.cxx`): resize the view vector to the number of swap-chain images
and create one image view per swap-chain image. -/
def createImageViews (s : VulkanState) : VulkanState × List Event :=
  ({ s with
      swapChainImageViews :=
        (List.range s.swapChainImages.length).map (fun i => some (s.nextHandle + i))
      nextHandle := s.nextHandle + s.swapChainImages.length },
   [Event.createImageViews s.swapChainImages.length])

/-- Modelled from the spec: `FrameBuffers::createFrameBuffers` is not among
the given sources; per §4.3 it creates one framebuffer binding per image view
against the (unchanged) render pass. -/
def createFrameBuffers (s : VulkanState) : VulkanState × List Event :=
  ({ s with
      swapChainFrameBuffers :=
        (List.range s.swapChainImageViews.length).map (fun i => some (s.nextHandle + i))
      nextHandle := s.nextHandle + s.swapChainImageViews.length },
   [Event.createFrameBuffers s.swapChainImageViews.length])

namespace Legacy

/-- `Vulkan::destroySwapChain` (earlier revision of `Vulkan.cxx`): destroy
every framebuffer and null its vector entry, then destroy every image view
and null its vector entry, then destroy the swap chain handle — which is NOT
nulled. `vkDestroy*` on `VK_NULL_HANDLE` is a no-op, so a `none` entry frees
nothing. -/
def destroySwapChain (s : VulkanState) : VulkanState × List Event :=
  ({ s with
      swapChainFrameBuffers := s.swapChainFrameBuffers.map (fun _ => none)
      swapChainImageViews := s.swapChainImageViews.map (fun _ => none) },
   s.swapChainFrameBuffers.map Event.destroyFramebuffer
     ++ s.swapChainImageViews.map Event.destroyImageView
     ++ [Event.destroySwapchainKHR s.swapChain])

/-- `Vulkan::recreateSwapChain` (earlier revision of `Vulkan.cxx`): poll the
framebuffer size until nonzero (pausing graphics while minimized), wait for
device idle, destroy the old swap chain and dependents, then recreate the
swap chain, image views and framebuffers. -/
def recreateSwapChain (env : RebuildEnv) (s : VulkanState) : Outcome × List Event :=
  match pollLoop env.sizes env.pollFuel 0 with
  | (none, pt) => (Outcome.blocked, pt)
  | (some _, pt) =>
    let (s1, t1) := destroySwapChain s
    let (s2, t2) := createSwapChain env.newImageCount s1
    let (s3, t3) := createImageViews s2
    let (s4, t4) := createFrameBuffers s3
    (Outcome.ok s4, pt ++ [Event.deviceWaitIdle] ++ t1 ++ t2 ++ t3 ++ t4)

end Legacy

/-- `ImageViews::~ImageViews` (`ImageViews.cxx`): destroy each image view in
the vector (a no-op for `VK_NULL_HANDLE` entries) and null its entry; the
vector keeps its size. -/
def imageViewsDtor (views : List (Option ℕ)) : List (Option ℕ) × List Event :=
  (views.map (fun _ => none), views.map Event.destroyImageView)

/-- `Vulkan::recreateSwapChain` (module-based `Vulkan.cxx` under
`src/src/vulkan/`): wait for window focus (`Window::waitForWindowFocus` is
not among the given sources; modelled from the spec §4.5 as the un-minimize
size poll), wait for device idle, then `m_swapChain.reset()`,
`m_imageViews.reset()`, `m_frameBuffers.reset()` run the module destructors
in exactly that order — destroying the swap-chain handle first, then the
image views, then the framebuffers (the `SwapChain` and `FrameBuffers`
destructors are not among the given sources; modelled from the spec §4.2 and
§4.3 as releasing the chain handle resp. the framebuffer bindings) — and
finally the three modules are reconstructed in creation order. -/
def recreateSwapChain (env : RebuildEnv) (s : VulkanState) : Outcome × List Event :=
  match pollLoop env.sizes env.pollFuel 0 with
  | (none, pt) => (Outcome.blocked, pt)
  | (some _, pt) =>
    let t1 := [Event.destroySwapchainKHR s.swapChain]
    let s1 := { s with swapChain := none, swapChainImages := [] }
    let t2 := s1.swapChainImageViews.map Event.destroyImageView
    let s2 := { s1 with swapChainImageViews := [] }
    let t3 := s2.swapChainFrameBuffers.map Event.destroyFramebuffer
    let s3 := { s2 with swapChainFrameBuffers := [] }
    let (s4, t4) := createSwapChain env.newImageCount s3
    let (s5, t5) := createImageViews s4
    let (s6, t6) := createFrameBuffers s5
    (Outcome.ok s6, pt ++ [Event.deviceWaitIdle] ++ t1 ++ t2 ++ t3 ++ t4 ++ t5 ++ t6)

/-- `Vulkan::waitForPreviousFrame` (`src/src/vulkan/Vulkan.cxx`): wait on the
current frame slot's in-flight fence. It does not reset the fence. -/
def waitForPreviousFrame (s : VulkanState) : VulkanState × List Event :=
  (s, [Event.waitFence s.frameIndex])

/-- `Vulkan::getNextSwapChainImage` (`src/src/vulkan/Vulkan.cxx`): acquire the
next image. On `VK_ERROR_OUT_OF_DATE_KHR`, recreate the swap chain and return
(the image index stays unwritten and the fence is not reset). On any other
status that is neither `VK_SUCCESS` nor `VK_SUBOPTIMAL_KHR`, throw. Otherwise
reset the slot's fence — "reset fence only if we know we're submitting work".
Returns the outcome, the value written through `imageIndex`, and the trace. -/
def getNextSwapChainImage (fenv : FrameEnv) (renv : RebuildEnv) (s : VulkanState) :
    Outcome × Option ℕ × List Event :=
  let r := fenv.acquireResult
  let acq := Event.acquireImage s.frameIndex r
  if r = VkResult.errorOutOfDateKHR then
    ((recreateSwapChain renv s).1, none, acq :: (recreateSwapChain renv s).2)
  else if r ≠ VkResult.success ∧ r ≠ VkResult.suboptimalKHR then
    (Outcome.fatal "Failed to acquire swap chain image!", none, [acq])
  else
    (Outcome.ok s, some fenv.acquireImageIndex, [acq, Event.resetFence s.frameIndex])

/-- `Vulkan::resetGraphicsCmdBuffer` (`src/src/vulkan/Vulkan.cxx`): reset the
slot's command buffer and re-record the draw commands against the given image
index. -/
def resetGraphicsCmdBuffer (imageIndex : Option ℕ) (s : VulkanState) :
    VulkanState × List Event :=
  (s, [Event.resetCmdBuffer s.frameIndex, Event.recordCommands s.frameIndex imageIndex])

/-- `Vulkan::submitGraphicsCmdBuffer` (`src/src/vulkan/Vulkan.cxx`): submit
the slot's command buffer on the graphics queue. -/
def submitGraphicsCmdBuffer (s : VulkanState) : VulkanState × List Event :=
  (s, [Event.submitCmdBuffer s.frameIndex])

/-- `Vulkan::presentImageBuffer` (`src/src/vulkan/Vulkan.cxx`): queue the
present. If the result is out-of-date or suboptimal, or the GLFW resize flag
is set, clear the flag and recreate the swap chain; otherwise any non-success
result throws. -/
def presentImageBuffer (fenv : FrameEnv) (renv : RebuildEnv) (imageIndex : Option ℕ)
    (s : VulkanState) : Outcome × List Event :=
  let r := fenv.presentResult
  let ev := Event.queuePresent imageIndex r
  if r = VkResult.errorOutOfDateKHR ∨ r = VkResult.suboptimalKHR ∨ s.framebufferResized then
    ((recreateSwapChain renv { s with framebufferResized := false }).1,
      ev :: (recreateSwapChain renv { s with framebufferResized := false }).2)
  else if r ≠ VkResult.success then
    (Outcome.fatal "Failed to present the current swap chain image!", [ev])
  else
    (Outcome.ok s, [ev])

/-- `Vulkan::renderFrame` (`src/src/vulkan/Vulkan.cxx`): wait, acquire,
re-record, submit, present, then advance the frame slot modulo
`MAX_FRAMES_IN_FLIGHT`. Note the `return` inside `getNextSwapChainImage`
only exits that function: `renderFrame` continues with the remaining calls
whenever `getNextSwapChainImage` returns normally. -/
def renderFrame (fenv : FrameEnv) (renv : RebuildEnv) (s : VulkanState) :
    Outcome × List Event :=
  let (s1, t1) := waitForPreviousFrame s
  match getNextSwapChainImage fenv renv s1 with
  | (Outcome.ok s2, idx, t2) =>
    let (s3, t3) := resetGraphicsCmdBuffer idx s2
    let (s4, t4) := submitGraphicsCmdBuffer s3
    match presentImageBuffer fenv renv idx s4 with
    | (Outcome.ok s5, t5) =>
      (Outcome.ok { s5 with frameIndex := (s5.frameIndex + 1) % s5.MAX_FRAMES_IN_FLIGHT },
       t1 ++ t2 ++ t3 ++ t4 ++ t5)
    | (o, t5) => (o, t1 ++ t2 ++ t3 ++ t4 ++ t5)
  | (o, _, t2) => (o, t1 ++ t2)

/-- Run `n` frames of the render loop, frame `i` consuming `fenvs i`. -/
def runFrames (fenvs : ℕ → FrameEnv) (renv : RebuildEnv) : ℕ → ℕ → VulkanState →
    Outcome × List Event
  | _, 0, s => (Outcome.ok s, [])
  | i, n + 1, s =>
    match renderFrame (fenvs i) renv s with
    | (Outcome.ok s1, t) =>
      let r := runFrames fenvs renv (i + 1) n s1
      (r.1, t ++ r.2)
    | (o, t) => (o, t)

/-- The state after the `Vulkan` constructor: swap chain, image views, render
pass, pipeline, framebuffers and command pools created, frame slot 0, resize
flag clear. -/
def initialState (mfif imageCount : ℕ) : VulkanState :=
  let s0 : VulkanState :=
    { MAX_FRAMES_IN_FLIGHT := mfif
      frameIndex := 0
      framebufferResized := false
      swapChain := none
      swapChainImages := []
      swapChainImageViews := []
      swapChainFrameBuffers := []
      renderPass := 1
      graphicsPipeline := 2
      pipelineLayout := 3
      graphicsCommandPool := 4
      transferCommandPool := 5
      nextHandle := 10 }
  let (s1, _) := createSwapChain imageCount s0
  let (s2, _) := createImageViews s1
  let (s3, _) := createFrameBuffers s2
  s3

/-- Handles actually freed by `vkDestroyFramebuffer` calls in a trace
(`VK_NULL_HANDLE` arguments free nothing). -/
def freedFramebuffers (t : List Event) : List ℕ :=
  t.filterMap fun e =>
    match e with
    | Event.destroyFramebuffer (some h) => some h
    | _ => none

/-- Handles actually freed by `vkDestroyImageView` calls in a trace. -/
def freedImageViews (t : List Event) : List ℕ :=
  t.filterMap fun e =>
    match e with
    | Event.destroyImageView (some h) => some h
    | _ => none

/-- Handles actually freed by `vkDestroySwapchainKHR` calls in a trace. -/
def freedSwapchains (t : List Event) : List ℕ :=
  t.filterMap fun e =>
    match e with
    | Event.destroySwapchainKHR (some h) => some h
    | _ => none

/-- The sequence of fence-wait slots in a trace. -/
def waitSlots (t : List Event) : List ℕ :=
  t.filterMap fun e =>
    match e with
    | Event.waitFence i => some i
    | _ => none

/-- Whether an outcome is a thrown `std::runtime_error`. -/
def Outcome.isFatal : Outcome → Bool
  | Outcome.fatal _ => true
  | _ => false

/-- The state produced by a successful swap-chain rebuild over pre-state `s`
when the driver grants `c` images: fresh chain handle, `c` images, `c` image
views, `c` framebuffers; every other field of `s` untouched. -/
def rebuiltState (c : ℕ) (s : VulkanState) : VulkanState :=
  { s with
      swapChain := some s.nextHandle
      swapChainImages := (List.range c).map (fun i => s.nextHandle + 1 + i)
      swapChainImageViews := (List.range c).map (fun i => some (s.nextHandle + 1 + c + i))
      swapChainFrameBuffers := (List.range c).map (fun i => some (s.nextHandle + 1 + c + c + i))
      nextHandle := s.nextHandle + 1 + c + c + c }

lemma pollLoop_events (sizes : ℕ → ℕ × ℕ) :
    ∀ (fuel k : ℕ), ∀ e ∈ (pollLoop sizes fuel k).2,
      ∃ w h, e = Event.pollFramebufferSize w h := by
  intro fuel
  induction fuel with
  | zero =>
    intro k e he
    by_cases hc : (sizes k).1 = 0 ∨ (sizes k).2 = 0 <;>
      simp only [pollLoop, hc, if_true, if_false, List.mem_singleton] at he <;>
      exact ⟨_, _, he⟩
  | succ n ih =>
    intro k e he
    by_cases hc : (sizes k).1 = 0 ∨ (sizes k).2 = 0
    · simp only [pollLoop, hc, if_true, List.mem_cons] at he
      rcases he with h | h
      · exact ⟨_, _, h⟩
      · exact ih (k + 1) e h
    · simp only [pollLoop, hc, if_false, List.mem_singleton] at he
      exact ⟨_, _, he⟩

lemma pollLoop_some_nonzero (sizes : ℕ → ℕ × ℕ) :
    ∀ (fuel k j : ℕ), (pollLoop sizes fuel k).1 = some j →
      (sizes j).1 ≠ 0 ∧ (sizes j).2 ≠ 0 := by
  intro fuel
  induction fuel with
  | zero =>
    intro k j h
    by_cases hc : (sizes k).1 = 0 ∨ (sizes k).2 = 0
    · simp [pollLoop, hc] at h
    · simp only [pollLoop, hc, if_false, Option.some.injEq] at h
      subst h
      exact ⟨fun h0 => hc (Or.inl h0), fun h0 => hc (Or.inr h0)⟩
  | succ n ih =>
    intro k j h
    by_cases hc : (sizes k).1 = 0 ∨ (sizes k).2 = 0
    · simp only [pollLoop, hc, if_true] at h
      exact ih (k + 1) j h
    · simp only [pollLoop, hc, if_false, Option.some.injEq] at h
      subst h
      exact ⟨fun h0 => hc (Or.inl h0), fun h0 => hc (Or.inr h0)⟩

lemma pollLoop_some_getLast (sizes : ℕ → ℕ × ℕ) :
    ∀ (fuel k j : ℕ), (pollLoop sizes fuel k).1 = some j →
      (pollLoop sizes fuel k).2.getLast? =
        some (Event.pollFramebufferSize (sizes j).1 (sizes j).2) := by
  intro fuel
  induction fuel with
  | zero =>
    intro k j h
    by_cases hc : (sizes k).1 = 0 ∨ (sizes k).2 = 0
    · simp [pollLoop, hc] at h
    · simp only [pollLoop, hc, if_false, Option.some.injEq] at h
      subst h
      simp [pollLoop, hc]
  | succ n ih =>
    intro k j h
    by_cases hc : (sizes k).1 = 0 ∨ (sizes k).2 = 0
    · simp only [pollLoop, hc, if_true] at h ⊢
      have h2 := ih (k + 1) j h
      cases hp : (pollLoop sizes n (k + 1)).2 with
      | nil => rw [hp] at h2; simp at h2
      | cons a l =>
        rw [hp] at h2
        rw [List.getLast?_cons_cons]
        exact h2
    · simp only [pollLoop, hc, if_false, Option.some.injEq] at h
      subst h
      simp [pollLoop, hc]

/-- A successful poll in the rebuild produces exactly the `rebuiltState`;
a failed (fuel-exhausted) poll leaves the rebuild blocked with a trace of
size polls only. This characterizes the module-based `recreateSwapChain`. -/
lemma recreateSwapChain_cases (renv : RebuildEnv) (s : VulkanState) :
    ((pollLoop renv.sizes renv.pollFuel 0).1 = none ∧
      recreateSwapChain renv s = (Outcome.blocked, (pollLoop renv.sizes renv.pollFuel 0).2)) ∨
    ((∃ j, (pollLoop renv.sizes renv.pollFuel 0).1 = some j) ∧
      (recreateSwapChain renv s).1 = Outcome.ok (rebuiltState renv.newImageCount s)) := by
  rcases h : pollLoop renv.sizes renv.pollFuel 0 with ⟨o, t⟩
  cases o with
  | none =>
    left
    exact ⟨rfl, by simp [recreateSwapChain, h]⟩
  | some j =>
    right
    refine ⟨⟨j, rfl⟩, ?_⟩
    simp [recreateSwapChain, h, createSwapChain, createImageViews, createFrameBuffers,
      rebuiltState]

/-- Same characterization for the earlier revision's `recreateSwapChain`:
on a successful poll it produces the same `rebuiltState`. -/
lemma legacy_recreateSwapChain_cases (renv : RebuildEnv) (s : VulkanState) :
    ((pollLoop renv.sizes renv.pollFuel 0).1 = none ∧
      Legacy.recreateSwapChain renv s =
        (Outcome.blocked, (pollLoop renv.sizes renv.pollFuel 0).2)) ∨
    ((∃ j, (pollLoop renv.sizes renv.pollFuel 0).1 = some j) ∧
      (Legacy.recreateSwapChain renv s).1 = Outcome.ok (rebuiltState renv.newImageCount s)) := by
  rcases h : pollLoop renv.sizes renv.pollFuel 0 with ⟨o, t⟩
  cases o with
  | none =>
    left
    exact ⟨rfl, by simp [Legacy.recreateSwapChain, h]⟩
  | some j =>
    right
    refine ⟨⟨j, rfl⟩, ?_⟩
    simp [Legacy.recreateSwapChain, Legacy.destroySwapChain, h, createSwapChain,
      createImageViews, createFrameBuffers, rebuiltState]

lemma recreateSwapChain_some_trace (renv : RebuildEnv) (s : VulkanState) (j : ℕ)
    (h : (pollLoop renv.sizes renv.pollFuel 0).1 = some j) :
    (recreateSwapChain renv s).2 =
      (pollLoop renv.sizes renv.pollFuel 0).2 ++ Event.deviceWaitIdle ::
        Event.destroySwapchainKHR s.swapChain ::
          (s.swapChainImageViews.map Event.destroyImageView ++
            s.swapChainFrameBuffers.map Event.destroyFramebuffer ++
            [Event.createSwapchain renv.newImageCount,
             Event.createImageViews renv.newImageCount,
             Event.createFrameBuffers renv.newImageCount]) := by
  rcases hpair : pollLoop renv.sizes renv.pollFuel 0 with ⟨o, t⟩
  rw [hpair] at h
  simp only at h
  subst h
  simp [recreateSwapChain, hpair, createSwapChain, createImageViews, createFrameBuffers]

lemma legacy_recreateSwapChain_some_trace (renv : RebuildEnv) (s : VulkanState) (j : ℕ)
    (h : (pollLoop renv.sizes renv.pollFuel 0).1 = some j) :
    (Legacy.recreateSwapChain renv s).2 =
      (pollLoop renv.sizes renv.pollFuel 0).2 ++ Event.deviceWaitIdle ::
        ((Legacy.destroySwapChain s).2 ++
          [Event.createSwapchain renv.newImageCount,
           Event.createImageViews renv.newImageCount,
           Event.createFrameBuffers renv.newImageCount]) := by
  rcases hpair : pollLoop renv.sizes renv.pollFuel 0 with ⟨o, t⟩
  rw [hpair] at h
  simp only at h
  subst h
  simp [Legacy.recreateSwapChain, Legacy.destroySwapChain, hpair, createSwapChain,
    createImageViews, createFrameBuffers]

/-- Every event emitted by the module-based rebuild is a size poll, a device
idle wait, a destroy of the old chain/views/framebuffers, or a create of the
new ones: in particular no fence reset, no submission, no present. -/
lemma recreateSwapChain_events (renv : RebuildEnv) (s : VulkanState) :
    ∀ e ∈ (recreateSwapChain renv s).2,
      (∃ w h, e = Event.pollFramebufferSize w h) ∨ e = Event.deviceWaitIdle ∨
      (∃ h, e = Event.destroySwapchainKHR h) ∨ (∃ h, e = Event.destroyImageView h) ∨
      (∃ h, e = Event.destroyFramebuffer h) ∨ (∃ c, e = Event.createSwapchain c) ∨
      (∃ c, e = Event.createImageViews c) ∨ (∃ c, e = Event.createFrameBuffers c) := by
  intro e he
  rcases recreateSwapChain_cases renv s with ⟨hp, heq⟩ | ⟨⟨j, hp⟩, _⟩
  · rw [heq] at he
    exact Or.inl (pollLoop_events renv.sizes renv.pollFuel 0 e he)
  · rw [recreateSwapChain_some_trace renv s j hp] at he
    rcases List.mem_append.mp he with hm | hm
    · exact Or.inl (pollLoop_events renv.sizes renv.pollFuel 0 e hm)
    · rcases List.mem_cons.mp hm with hm | hm
      · exact Or.inr (Or.inl hm)
      · rcases List.mem_cons.mp hm with hm | hm
        · exact Or.inr (Or.inr (Or.inl ⟨_, hm⟩))
        · rcases List.mem_append.mp hm with hm | hm
          · rcases List.mem_append.mp hm with hm | hm
            · rcases List.mem_map.mp hm with ⟨a, _, ha⟩
              exact Or.inr (Or.inr (Or.inr (Or.inl ⟨a, ha.symm⟩)))
            · rcases List.mem_map.mp hm with ⟨a, _, ha⟩
              exact Or.inr (Or.inr (Or.inr (Or.inr (Or.inl ⟨a, ha.symm⟩))))
          · simp only [List.mem_cons, List.mem_singleton] at hm
            rcases hm with hm | hm | hm
            · exact Or.inr (Or.inr (Or.inr (Or.inr (Or.inr (Or.inl ⟨_, hm⟩)))))
            · exact Or.inr (Or.inr (Or.inr (Or.inr (Or.inr (Or.inr (Or.inl ⟨_, hm⟩))))))
            · rcases hm with hm | hm
              · exact Or.inr (Or.inr (Or.inr (Or.inr (Or.inr (Or.inr (Or.inr ⟨_, hm⟩))))))
              · simp at hm

lemma resetFence_not_mem_recreate (renv : RebuildEnv) (s : VulkanState) (i : ℕ) :
    Event.resetFence i ∉ (recreateSwapChain renv s).2 := by
  intro hmem
  rcases recreateSwapChain_events renv s _ hmem with ⟨w, h, hx⟩ | hx | ⟨h, hx⟩ | ⟨h, hx⟩ |
    ⟨h, hx⟩ | ⟨c, hx⟩ | ⟨c, hx⟩ | ⟨c, hx⟩ <;> simp at hx

lemma recreateSwapChain_not_fatal (renv : RebuildEnv) (s : VulkanState) :
    (recreateSwapChain renv s).1.isFatal = false := by
  rcases recreateSwapChain_cases renv s with ⟨_, heq⟩ | ⟨_, hok⟩
  · rw [heq]; rfl
  · rw [hok]; rfl

lemma getNextSwapChainImage_fst_ok (fenv : FrameEnv) (renv : RebuildEnv)
    (s s2 : VulkanState) (h : (getNextSwapChainImage fenv renv s).1 = Outcome.ok s2) :
    s2 = s ∨ s2 = rebuiltState renv.newImageCount s := by
  by_cases h1 : fenv.acquireResult = VkResult.errorOutOfDateKHR
  · simp only [getNextSwapChainImage, h1, if_true] at h
    rcases recreateSwapChain_cases renv s with ⟨_, heq⟩ | ⟨_, hok⟩
    · rw [heq] at h
      simp at h
    · rw [hok] at h
      exact Or.inr (Outcome.ok.inj h).symm
  · by_cases h2 : fenv.acquireResult ≠ VkResult.success ∧
      fenv.acquireResult ≠ VkResult.suboptimalKHR
    · simp [getNextSwapChainImage, h1, h2] at h
    · simp only [getNextSwapChainImage, h1, h2, if_false] at h
      exact Or.inl (Outcome.ok.inj h).symm

lemma presentImageBuffer_fst_ok (fenv : FrameEnv) (renv : RebuildEnv) (idx : Option ℕ)
    (s s5 : VulkanState) (h : (presentImageBuffer fenv renv idx s).1 = Outcome.ok s5) :
    s5 = s ∨ s5 = rebuiltState renv.newImageCount { s with framebufferResized := false } := by
  by_cases h1 : fenv.presentResult = VkResult.errorOutOfDateKHR ∨
      fenv.presentResult = VkResult.suboptimalKHR ∨ s.framebufferResized
  · simp only [presentImageBuffer, h1, if_true] at h
    rcases recreateSwapChain_cases renv { s with framebufferResized := false } with
      ⟨_, heq⟩ | ⟨_, hok⟩
    · rw [heq] at h
      simp at h
    · rw [hok] at h
      exact Or.inr (Outcome.ok.inj h).symm
  · by_cases h2 : fenv.presentResult ≠ VkResult.success
    · simp [presentImageBuffer, h1, h2] at h
    · simp only [presentImageBuffer, h1, h2, if_false] at h
      exact Or.inl (Outcome.ok.inj h).symm

/-- Every normally-returning `renderFrame` produces its final state by taking
a state `s5` that differs from `s` at most in the swap-chain cluster and the
resize flag, and bumping the frame slot by exactly one modulo
`MAX_FRAMES_IN_FLIGHT`. -/
lemma renderFrame_fst_ok (fenv : FrameEnv) (renv : RebuildEnv) (s s' : VulkanState)
    (h : (renderFrame fenv renv s).1 = Outcome.ok s') :
    ∃ s5 : VulkanState,
      s' = { s5 with frameIndex := (s5.frameIndex + 1) % s5.MAX_FRAMES_IN_FLIGHT } ∧
      s5.frameIndex = s.frameIndex ∧
      s5.MAX_FRAMES_IN_FLIGHT = s.MAX_FRAMES_IN_FLIGHT ∧
      s5.renderPass = s.renderPass ∧ s5.graphicsPipeline = s.graphicsPipeline ∧
      s5.pipelineLayout = s.pipelineLayout ∧
      s5.graphicsCommandPool = s.graphicsCommandPool ∧
      s5.transferCommandPool = s.transferCommandPool ∧
      ((s5.swapChainFrameBuffers.length = s5.swapChainImages.length ∧
        s5.swapChainImageViews.length = s5.swapChainImages.length) ∨
       (s5.swapChainFrameBuffers = s.swapChainFrameBuffers ∧
        s5.swapChainImageViews = s.swapChainImageViews ∧
        s5.swapChainImages = s.swapChainImages)) := by
  simp only [renderFrame, waitForPreviousFrame] at h
  rcases hg : getNextSwapChainImage fenv renv s with ⟨og, idx, tg⟩
  rw [hg] at h
  cases og with
  | fatal m => simp at h
  | blocked => simp at h
  | ok s2 =>
    have hs2 : s2 = s ∨ s2 = rebuiltState renv.newImageCount s :=
      getNextSwapChainImage_fst_ok fenv renv s s2 (by rw [hg])
    simp only [resetGraphicsCmdBuffer, submitGraphicsCmdBuffer] at h
    rcases hp : presentImageBuffer fenv renv idx s2 with ⟨op, tp⟩
    rw [hp] at h
    cases op with
    | fatal m => simp at h
    | blocked => simp at h
    | ok s5 =>
      have hs5 : s5 = s2 ∨
          s5 = rebuiltState renv.newImageCount { s2 with framebufferResized := false } :=
        presentImageBuffer_fst_ok fenv renv idx s2 s5 (by rw [hp])
      simp only at h
      refine ⟨s5, (Outcome.ok.inj h).symm, ?_⟩
      have hlen : ∀ (c : ℕ) (x : VulkanState),
          (rebuiltState c x).swapChainFrameBuffers.length =
            (rebuiltState c x).swapChainImages.length ∧
          (rebuiltState c x).swapChainImageViews.length =
            (rebuiltState c x).swapChainImages.length := by
        intro c x
        simp [rebuiltState]
      rcases hs5 with rfl | rfl <;> rcases hs2 with rfl | rfl <;>
        simp [rebuiltState, hlen]

lemma createSwapchain_mem_recreate (renv : RebuildEnv) (s : VulkanState) (j : ℕ)
    (hpoll : (pollLoop renv.sizes renv.pollFuel 0).1 = some j) :
    Event.createSwapchain renv.newImageCount ∈ (recreateSwapChain renv s).2 := by
  rw [recreateSwapChain_some_trace renv s j hpoll]
  simp

/-- C1: the spec claims that a frame whose acquire reports out-of-date
performs no command-buffer submission and no present. Evaluating `renderFrame`
with an out-of-date acquire (the injected status of spec Scenario B) shows
the full rebuild cycle runs, but the SAME frame then still resets and
re-records its command buffer with an unwritten image index, submits it, and
queues a present: the C++ `return` exits only `getNextSwapChainImage`, not
`renderFrame`, contradicting the code's own "reset fence only if we know
we're submitting work" comment. -/
theorem claim_C1_out_of_date_frame_still_submits_and_presents :
    Event.createSwapchain 4 ∈
      (renderFrame ⟨VkResult.errorOutOfDateKHR, 0, VkResult.success⟩
        ⟨fun _ => (800, 600), 5, 4⟩ (initialState 2 3)).2 ∧
    Event.recordCommands 0 none ∈
      (renderFrame ⟨VkResult.errorOutOfDateKHR, 0, VkResult.success⟩
        ⟨fun _ => (800, 600), 5, 4⟩ (initialState 2 3)).2 ∧
    Event.submitCmdBuffer 0 ∈
      (renderFrame ⟨VkResult.errorOutOfDateKHR, 0, VkResult.success⟩
        ⟨fun _ => (800, 600), 5, 4⟩ (initialState 2 3)).2 ∧
    Event.queuePresent none VkResult.success ∈
      (renderFrame ⟨VkResult.errorOutOfDateKHR, 0, VkResult.success⟩
        ⟨fun _ => (800, 600), 5, 4⟩ (initialState 2 3)).2 := by
  decide

/-- C2: a frame slot's in-flight fence is reset by `getNextSwapChainImage`
exactly when the acquire returned a successful, non-out-of-date status
(`VK_SUCCESS` or `VK_SUBOPTIMAL_KHR`); `waitForPreviousFrame` never resets
it, and the out-of-date acquire path that triggers swap-chain recreation
never resets it. -/
theorem claim_C2_fence_reset_only_after_confirmed_acquire
    (s : VulkanState) (fenv : FrameEnv) (renv : RebuildEnv) :
    (∀ i, Event.resetFence i ∉ (waitForPreviousFrame s).2) ∧
    (Event.resetFence s.frameIndex ∈ (getNextSwapChainImage fenv renv s).2.2 ↔
      (fenv.acquireResult = VkResult.success ∨
        fenv.acquireResult = VkResult.suboptimalKHR)) ∧
    (fenv.acquireResult = VkResult.errorOutOfDateKHR →
      ∀ i, Event.resetFence i ∉ (getNextSwapChainImage fenv renv s).2.2) := by
  refine ⟨?_, ?_, ?_⟩
  · intro i
    simp [waitForPreviousFrame]
  · cases hr : fenv.acquireResult with
    | success => simp [getNextSwapChainImage, hr]
    | suboptimalKHR => simp [getNextSwapChainImage, hr]
    | errorOutOfDateKHR =>
      simp [getNextSwapChainImage, hr, resetFence_not_mem_recreate renv s s.frameIndex]
    | errorOther => simp [getNextSwapChainImage, hr]
  · intro hr i
    simp [getNextSwapChainImage, hr, resetFence_not_mem_recreate renv s i]

theorem claim_C2_witness :
    Event.resetFence 0 ∉
      (getNextSwapChainImage ⟨VkResult.errorOutOfDateKHR, 0, VkResult.success⟩
        ⟨fun _ => (800, 600), 5, 4⟩ (initialState 2 3)).2.2 :=
  (claim_C2_fence_reset_only_after_confirmed_acquire (initialState 2 3)
    ⟨VkResult.errorOutOfDateKHR, 0, VkResult.success⟩
    ⟨fun _ => (800, 600), 5, 4⟩).2.2 rfl 0

/-- C3: the spec claims the rebuild destroys the framebuffer set before the
swap chain. The earlier revision's `destroySwapChain` does exactly that
(framebuffers, then image views, then the chain), but the module-based
`Vulkan::recreateSwapChain` in `src/src/vulkan/Vulkan.cxx` resets
`m_swapChain` first, so the swap-chain handle is destroyed BEFORE the image
views and framebuffers — the destroy order of the claim (and of the spec's
invariant (4)) is inverted by the module reset sequence. The evaluation
below exhibits both traces on the same state. -/
theorem claim_C3_module_rebuild_destroys_swapchain_first :
    (Legacy.destroySwapChain (initialState 2 3)).2 =
      [Event.destroyFramebuffer (some 17), Event.destroyFramebuffer (some 18),
       Event.destroyFramebuffer (some 19), Event.destroyImageView (some 14),
       Event.destroyImageView (some 15), Event.destroyImageView (some 16),
       Event.destroySwapchainKHR (some 10)] ∧
    (recreateSwapChain ⟨fun _ => (800, 600), 5, 4⟩ (initialState 2 3)).2 =
      [Event.pollFramebufferSize 800 600, Event.deviceWaitIdle,
       Event.destroySwapchainKHR (some 10),
       Event.destroyImageView (some 14), Event.destroyImageView (some 15),
       Event.destroyImageView (some 16),
       Event.destroyFramebuffer (some 17), Event.destroyFramebuffer (some 18),
       Event.destroyFramebuffer (some 19),
       Event.createSwapchain 4, Event.createImageViews 4,
       Event.createFrameBuffers 4] := by
  decide

/-- C4 counterexample: the claim says any non-staleness, non-success status
from present aborts the frame loop with a fatal error. But when the GLFW
framebuffer-resized flag is set, the resize branch of `presentImageBuffer`
pre-empts the error check: a present returning a hard error status (e.g.
device lost) is swallowed and a swap-chain recreation runs instead of the
fatal present error. -/
theorem claim_C4_counterexample_resized_flag_masks_present_error :
    (presentImageBuffer ⟨VkResult.success, 0, VkResult.errorOther⟩
        ⟨fun _ => (800, 600), 5, 4⟩ (some 0)
        { initialState 2 3 with framebufferResized := true }).1.isFatal = false ∧
    Event.createSwapchain 4 ∈
      (presentImageBuffer ⟨VkResult.success, 0, VkResult.errorOther⟩
        ⟨fun _ => (800, 600), 5, 4⟩ (some 0)
        { initialState 2 3 with framebufferResized := true }).2 := by
  decide

/-- C4 (amended): out-of-date at acquire, and out-of-date/suboptimal at
present (or a pending resize flag), are handled internally by swap-chain
recreation and never raise an error; any other non-success status from
acquire raises the descriptive fatal acquire error; any other non-success
status from present raises the descriptive fatal present error — unless the
framebuffer-resized flag is set, in which case the code recreates the swap
chain instead of aborting. Successful statuses return normally. -/
theorem claim_C4_amended_status_taxonomy
    (s : VulkanState) (fenv : FrameEnv) (renv : RebuildEnv) (idx : Option ℕ) (j : ℕ)
    (hpoll : (pollLoop renv.sizes renv.pollFuel 0).1 = some j) :
    (fenv.acquireResult = VkResult.errorOutOfDateKHR →
      (getNextSwapChainImage fenv renv s).1.isFatal = false ∧
      Event.createSwapchain renv.newImageCount ∈ (getNextSwapChainImage fenv renv s).2.2) ∧
    (fenv.acquireResult = VkResult.errorOther →
      (getNextSwapChainImage fenv renv s).1 =
        Outcome.fatal "Failed to acquire swap chain image!") ∧
    ((fenv.presentResult = VkResult.errorOutOfDateKHR ∨
        fenv.presentResult = VkResult.suboptimalKHR ∨ s.framebufferResized = true) →
      (presentImageBuffer fenv renv idx s).1.isFatal = false ∧
      Event.createSwapchain renv.newImageCount ∈ (presentImageBuffer fenv renv idx s).2) ∧
    (fenv.presentResult = VkResult.errorOther → s.framebufferResized = false →
      (presentImageBuffer fenv renv idx s).1 =
        Outcome.fatal "Failed to present the current swap chain image!") ∧
    ((fenv.acquireResult = VkResult.success ∨
        fenv.acquireResult = VkResult.suboptimalKHR) →
      (getNextSwapChainImage fenv renv s).1 = Outcome.ok s) ∧
    (fenv.presentResult = VkResult.success → s.framebufferResized = false →
      (presentImageBuffer fenv renv idx s).1 = Outcome.ok s) := by
  refine ⟨?_, ?_, ?_, ?_, ?_, ?_⟩
  · intro hr
    refine ⟨?_, ?_⟩
    · simp [getNextSwapChainImage, hr, recreateSwapChain_not_fatal renv s]
    · simp only [getNextSwapChainImage, hr, if_true, if_pos rfl]
      exact List.mem_cons_of_mem _ (createSwapchain_mem_recreate renv s j hpoll)
  · intro hr
    simp [getNextSwapChainImage, hr]
  · intro hr
    have hc : fenv.presentResult = VkResult.errorOutOfDateKHR ∨
        fenv.presentResult = VkResult.suboptimalKHR ∨ s.framebufferResized := by
      rcases hr with h | h | h
      · exact Or.inl h
      · exact Or.inr (Or.inl h)
      · exact Or.inr (Or.inr (by rw [h]))
    refine ⟨?_, ?_⟩
    · simp [presentImageBuffer, hc,
        recreateSwapChain_not_fatal renv { s with framebufferResized := false }]
    · simp only [presentImageBuffer, hc, if_true, if_pos]
      exact List.mem_cons_of_mem _
        (createSwapchain_mem_recreate renv { s with framebufferResized := false } j hpoll)
  · intro hr hflag
    have hc : ¬(fenv.presentResult = VkResult.errorOutOfDateKHR ∨
        fenv.presentResult = VkResult.suboptimalKHR ∨ s.framebufferResized) := by
      rw [hr, hflag]
      simp
    simp [presentImageBuffer, hc, hr, hflag]
  · intro hr
    rcases hr with hr | hr <;> simp [getNextSwapChainImage, hr]
  · intro hr hflag
    have hc : ¬(fenv.presentResult = VkResult.errorOutOfDateKHR ∨
        fenv.presentResult = VkResult.suboptimalKHR ∨ s.framebufferResized) := by
      rw [hr, hflag]
      simp
    simp [presentImageBuffer, hc, hr, hflag]

theorem claim_C4_amended_witness :
    (getNextSwapChainImage ⟨VkResult.errorOutOfDateKHR, 0, VkResult.success⟩
      ⟨fun _ => (800, 600), 5, 4⟩ (initialState 2 3)).1.isFatal = false :=
  ((claim_C4_amended_status_taxonomy (initialState 2 3)
    ⟨VkResult.errorOutOfDateKHR, 0, VkResult.success⟩
    ⟨fun _ => (800, 600), 5, 4⟩ (some 0) 0 (by decide)).1 rfl).1

/-- C5: a completed rebuild (either revision) leaves the render pass handle,
the graphics pipeline handle (and its layout), and both command-pool handles
bit-identical: the rebuild mutates only the swap chain, image views and
framebuffers. -/
theorem claim_C5_rebuild_preserves_static_handles
    (s s1 s2 : VulkanState) (renv : RebuildEnv)
    (h1 : (recreateSwapChain renv s).1 = Outcome.ok s1)
    (h2 : (Legacy.recreateSwapChain renv s).1 = Outcome.ok s2) :
    (s1.renderPass = s.renderPass ∧ s1.graphicsPipeline = s.graphicsPipeline ∧
     s1.pipelineLayout = s.pipelineLayout ∧
     s1.graphicsCommandPool = s.graphicsCommandPool ∧
     s1.transferCommandPool = s.transferCommandPool) ∧
    (s2.renderPass = s.renderPass ∧ s2.graphicsPipeline = s.graphicsPipeline ∧
     s2.pipelineLayout = s.pipelineLayout ∧
     s2.graphicsCommandPool = s.graphicsCommandPool ∧
     s2.transferCommandPool = s.transferCommandPool) := by
  constructor
  · rcases recreateSwapChain_cases renv s with ⟨_, heq⟩ | ⟨_, hok⟩
    · rw [heq] at h1
      simp at h1
    · rw [hok] at h1
      have : s1 = rebuiltState renv.newImageCount s := (Outcome.ok.inj h1).symm
      subst this
      simp [rebuiltState]
  · rcases legacy_recreateSwapChain_cases renv s with ⟨_, heq⟩ | ⟨_, hok⟩
    · rw [heq] at h2
      simp at h2
    · rw [hok] at h2
      have : s2 = rebuiltState renv.newImageCount s := (Outcome.ok.inj h2).symm
      subst this
      simp [rebuiltState]

theorem claim_C5_witness :
    (rebuiltState 4 (initialState 2 3)).renderPass = (initialState 2 3).renderPass :=
  (claim_C5_rebuild_preserves_static_handles (initialState 2 3)
    (rebuiltState 4 (initialState 2 3)) (rebuiltState 4 (initialState 2 3))
    ⟨fun _ => (800, 600), 5, 4⟩ (by decide) (by decide)).1.1

/-- C6: after any successful rebuild (either revision) the framebuffer count
equals the swap-chain image count, with image views 1:1 to images;
the constructor establishes the same invariant and every normally-returning
frame preserves it, so it holds after any sequence of resize events. -/
theorem claim_C6_framebuffer_count_equals_image_count
    (s : VulkanState) (renv : RebuildEnv) (fenv : FrameEnv) (mfif c : ℕ) :
    (∀ s1, (recreateSwapChain renv s).1 = Outcome.ok s1 →
      s1.swapChainFrameBuffers.length = s1.swapChainImages.length ∧
      s1.swapChainImageViews.length = s1.swapChainImages.length) ∧
    (∀ s2, (Legacy.recreateSwapChain renv s).1 = Outcome.ok s2 →
      s2.swapChainFrameBuffers.length = s2.swapChainImages.length ∧
      s2.swapChainImageViews.length = s2.swapChainImages.length) ∧
    ((initialState mfif c).swapChainFrameBuffers.length =
        (initialState mfif c).swapChainImages.length ∧
      (initialState mfif c).swapChainImageViews.length =
        (initialState mfif c).swapChainImages.length) ∧
    (∀ s3, (renderFrame fenv renv s).1 = Outcome.ok s3 →
      (s.swapChainFrameBuffers.length = s.swapChainImages.length ∧
        s.swapChainImageViews.length = s.swapChainImages.length) →
      s3.swapChainFrameBuffers.length = s3.swapChainImages.length ∧
      s3.swapChainImageViews.length = s3.swapChainImages.length) := by
  refine ⟨?_, ?_, ?_, ?_⟩
  · intro s1 h1
    rcases recreateSwapChain_cases renv s with ⟨_, heq⟩ | ⟨_, hok⟩
    · rw [heq] at h1
      simp at h1
    · rw [hok] at h1
      have hs : s1 = rebuiltState renv.newImageCount s := (Outcome.ok.inj h1).symm
      subst hs
      simp [rebuiltState]
  · intro s2 h2
    rcases legacy_recreateSwapChain_cases renv s with ⟨_, heq⟩ | ⟨_, hok⟩
    · rw [heq] at h2
      simp at h2
    · rw [hok] at h2
      have hs : s2 = rebuiltState renv.newImageCount s := (Outcome.ok.inj h2).symm
      subst hs
      simp [rebuiltState]
  · simp [initialState, createSwapChain, createImageViews, createFrameBuffers]
  · intro s3 h3 hinv
    obtain ⟨s5, rfl, _, _, _, _, _, _, _, hvec⟩ := renderFrame_fst_ok fenv renv s s3 h3
    show s5.swapChainFrameBuffers.length = s5.swapChainImages.length ∧
      s5.swapChainImageViews.length = s5.swapChainImages.length
    rcases hvec with ⟨ha, hb⟩ | ⟨ha, hb, hc2⟩
    · exact ⟨ha, hb⟩
    · exact ⟨by rw [ha, hc2]; exact hinv.1, by rw [hb, hc2]; exact hinv.2⟩

theorem claim_C6_witness :
    (rebuiltState 4 (initialState 2 3)).swapChainFrameBuffers.length =
      (rebuiltState 4 (initialState 2 3)).swapChainImages.length :=
  ((claim_C6_framebuffer_count_equals_image_count (initialState 2 3)
      ⟨fun _ => (800, 600), 5, 4⟩ ⟨VkResult.success, 0, VkResult.success⟩ 2 3).1
    (rebuiltState 4 (initialState 2 3)) (by decide)).1

/-- C7: every normally-returning frame advances the frame slot by exactly one
modulo `MAX_FRAMES_IN_FLIGHT`, independent of the acquired image index (the
quantified `fenv` carries an arbitrary index), and the slot stays inside
`[0, MAX_FRAMES_IN_FLIGHT)`; with `MAX_FRAMES_IN_FLIGHT = 2`, 3 swap-chain
images and 10 resize-free frames, the fence waits alternate slots
0,1,0,1,... -/
theorem claim_C7_frame_slot_advances_mod_max
    (s s' : VulkanState) (fenv : FrameEnv) (renv : RebuildEnv)
    (hok : (renderFrame fenv renv s).1 = Outcome.ok s')
    (hpos : 0 < s.MAX_FRAMES_IN_FLIGHT) :
    s'.frameIndex = (s.frameIndex + 1) % s.MAX_FRAMES_IN_FLIGHT ∧
    s'.frameIndex < s.MAX_FRAMES_IN_FLIGHT ∧
    waitSlots (runFrames (fun _ => ⟨VkResult.success, 1, VkResult.success⟩)
        ⟨fun _ => (800, 600), 5, 3⟩ 0 10 (initialState 2 3)).2 =
      [0, 1, 0, 1, 0, 1, 0, 1, 0, 1] := by
  obtain ⟨s5, rfl, hfi, hmf, _, _, _, _, _, _⟩ := renderFrame_fst_ok fenv renv s s' hok
  refine ⟨?_, ?_, ?_⟩
  · show (s5.frameIndex + 1) % s5.MAX_FRAMES_IN_FLIGHT = _
    rw [hfi, hmf]
  · show (s5.frameIndex + 1) % s5.MAX_FRAMES_IN_FLIGHT < _
    rw [hmf]
    exact Nat.mod_lt _ hpos
  · decide

theorem claim_C7_witness :
    ({ initialState 2 3 with frameIndex := 1 } : VulkanState).frameIndex =
      ((initialState 2 3).frameIndex + 1) % (initialState 2 3).MAX_FRAMES_IN_FLIGHT :=
  (claim_C7_frame_slot_advances_mod_max (initialState 2 3)
    { initialState 2 3 with frameIndex := 1 }
    ⟨VkResult.success, 1, VkResult.success⟩ ⟨fun _ => (800, 600), 5, 3⟩
    (by decide) (by decide)).1

/-- C8: the legacy rebuild never attempts swap-chain creation while the
observed framebuffer extent is zero: while every poll reports a zero
dimension the rebuild stays blocked and its whole trace is size polls; once
the poll loop returns, the poll it returned saw a nonzero extent, the last
trace poll is that nonzero observation, no creation happened during polling,
and only then does the trace continue with the device-idle wait, the
destroys, and the creates. -/
theorem claim_C8_rebuild_blocks_until_nonzero_extent
    (renv : RebuildEnv) (s : VulkanState) :
    ((pollLoop renv.sizes renv.pollFuel 0).1 = none →
      (Legacy.recreateSwapChain renv s).1 = Outcome.blocked ∧
      ∀ e ∈ (Legacy.recreateSwapChain renv s).2,
        ∃ w h, e = Event.pollFramebufferSize w h) ∧
    (∀ j, (pollLoop renv.sizes renv.pollFuel 0).1 = some j →
      ((renv.sizes j).1 ≠ 0 ∧ (renv.sizes j).2 ≠ 0) ∧
      (Legacy.recreateSwapChain renv s).2 =
        (pollLoop renv.sizes renv.pollFuel 0).2 ++ Event.deviceWaitIdle ::
          ((Legacy.destroySwapChain s).2 ++
            [Event.createSwapchain renv.newImageCount,
             Event.createImageViews renv.newImageCount,
             Event.createFrameBuffers renv.newImageCount]) ∧
      (pollLoop renv.sizes renv.pollFuel 0).2.getLast? =
        some (Event.pollFramebufferSize (renv.sizes j).1 (renv.sizes j).2) ∧
      ∀ c, Event.createSwapchain c ∉ (pollLoop renv.sizes renv.pollFuel 0).2) := by
  constructor
  · intro hp
    rcases legacy_recreateSwapChain_cases renv s with ⟨_, heq⟩ | ⟨⟨j, hj⟩, _⟩
    · refine ⟨by rw [heq], ?_⟩
      rw [heq]
      exact pollLoop_events renv.sizes renv.pollFuel 0
    · rw [hp] at hj
      simp at hj
  · intro j hj
    refine ⟨pollLoop_some_nonzero renv.sizes renv.pollFuel 0 j hj,
      legacy_recreateSwapChain_some_trace renv s j hj,
      pollLoop_some_getLast renv.sizes renv.pollFuel 0 j hj, ?_⟩
    intro c hmem
    rcases pollLoop_events renv.sizes renv.pollFuel 0 _ hmem with ⟨w, h, hx⟩
    simp at hx

theorem claim_C8_witness :
    (Legacy.recreateSwapChain ⟨fun _ => (0, 0), 3, 4⟩ (initialState 2 3)).1 =
      Outcome.blocked :=
  ((claim_C8_rebuild_blocks_until_nonzero_extent ⟨fun _ => (0, 0), 3, 4⟩
    (initialState 2 3)).1 (by decide)).1

lemma freedFramebuffers_map_iv (l : List (Option ℕ)) :
    freedFramebuffers (l.map Event.destroyImageView) = [] := by
  induction l with
  | nil => rfl
  | cons a t ih => exact ih

lemma freedFramebuffers_map_fb_nulled (l : List (Option ℕ)) :
    freedFramebuffers ((l.map fun _ => (none : Option ℕ)).map Event.destroyFramebuffer) = [] := by
  induction l with
  | nil => rfl
  | cons a t ih => exact ih

lemma freedImageViews_map_fb (l : List (Option ℕ)) :
    freedImageViews (l.map Event.destroyFramebuffer) = [] := by
  induction l with
  | nil => rfl
  | cons a t ih => exact ih

lemma freedImageViews_map_iv_nulled (l : List (Option ℕ)) :
    freedImageViews ((l.map fun _ => (none : Option ℕ)).map Event.destroyImageView) = [] := by
  induction l with
  | nil => rfl
  | cons a t ih => exact ih

lemma freedSwapchains_map_fb (l : List (Option ℕ)) :
    freedSwapchains (l.map Event.destroyFramebuffer) = [] := by
  induction l with
  | nil => rfl
  | cons a t ih => exact ih

lemma freedSwapchains_map_iv (l : List (Option ℕ)) :
    freedSwapchains (l.map Event.destroyImageView) = [] := by
  induction l with
  | nil => rfl
  | cons a t ih => exact ih

lemma freedSwapchains_destroy_singleton (h : Option ℕ) :
    freedSwapchains [Event.destroySwapchainKHR h] = h.toList := by
  cases h <;> rfl

lemma freedFramebuffers_destroy_singleton (h : Option ℕ) :
    freedFramebuffers [Event.destroySwapchainKHR h] = [] := by
  cases h <;> rfl

lemma freedImageViews_destroy_singleton (h : Option ℕ) :
    freedImageViews [Event.destroySwapchainKHR h] = [] := by
  cases h <;> rfl

/-- C9 counterexample: the claim says a second consecutive destroy is a
no-op with no double-free. After the first `destroySwapChain` the swap-chain
member still holds the destroyed handle (here 10), so the second call issues
`vkDestroySwapchainKHR` on it again: both calls free handle 10 — a double
destroy, not a no-op. -/
theorem claim_C9_counterexample_second_destroy_refrees_swapchain :
    freedSwapchains (Legacy.destroySwapChain
        (Legacy.destroySwapChain (initialState 2 3)).1).2 = [10] ∧
    freedSwapchains (Legacy.destroySwapChain (initialState 2 3)).2 = [10] := by
  decide

/-- C9 (amended): calling `destroySwapChain` twice in a row frees no
framebuffer and no image view the second time (their vector entries were
nulled by the first call, and `vkDestroy*` on `VK_NULL_HANDLE` is a no-op)
and raises no fatal error — `destroySwapChain` is a total state transformer
— but because the swap-chain member is never nulled, the second call frees
the very same swap-chain handle again: the claimed idempotence holds for the
framebuffer set and the image views, not for the swap-chain handle. -/
theorem claim_C9_amended_second_destroy_noop_except_swapchain (s : VulkanState) :
    freedFramebuffers (Legacy.destroySwapChain (Legacy.destroySwapChain s).1).2 = [] ∧
    freedImageViews (Legacy.destroySwapChain (Legacy.destroySwapChain s).1).2 = [] ∧
    (Legacy.destroySwapChain s).1.swapChain = s.swapChain ∧
    freedSwapchains (Legacy.destroySwapChain (Legacy.destroySwapChain s).1).2 =
      freedSwapchains (Legacy.destroySwapChain s).2 ∧
    freedSwapchains (Legacy.destroySwapChain s).2 = s.swapChain.toList := by
  have happ : ∀ (t1 t2 : List Event),
      freedFramebuffers (t1 ++ t2) = freedFramebuffers t1 ++ freedFramebuffers t2 :=
    fun t1 t2 => List.filterMap_append t1 t2 _
  have happ2 : ∀ (t1 t2 : List Event),
      freedImageViews (t1 ++ t2) = freedImageViews t1 ++ freedImageViews t2 :=
    fun t1 t2 => List.filterMap_append t1 t2 _
  have happ3 : ∀ (t1 t2 : List Event),
      freedSwapchains (t1 ++ t2) = freedSwapchains t1 ++ freedSwapchains t2 :=
    fun t1 t2 => List.filterMap_append t1 t2 _
  refine ⟨?_, ?_, rfl, ?_, ?_⟩
  · simp only [Legacy.destroySwapChain, happ, freedFramebuffers_map_iv,
      freedFramebuffers_map_fb_nulled, freedFramebuffers_destroy_singleton,
      List.append_nil, List.nil_append]
  · simp only [Legacy.destroySwapChain, happ2, freedImageViews_map_fb,
      freedImageViews_map_iv_nulled, freedImageViews_destroy_singleton,
      List.append_nil, List.nil_append]
  · simp only [Legacy.destroySwapChain, happ3, freedSwapchains_map_fb,
      freedSwapchains_map_iv, freedSwapchains_destroy_singleton,
      List.append_nil, List.nil_append]
  · simp only [Legacy.destroySwapChain, happ3, freedSwapchains_map_fb,
      freedSwapchains_map_iv, freedSwapchains_destroy_singleton,
      List.append_nil, List.nil_append]

/-- C10: after `destroySwapChain`, every framebuffer-handle entry and every
image-view-handle entry is `VK_NULL_HANDLE` while both vectors keep their
previous sizes, and the swap-chain member keeps its (now stale) handle — it
is not nulled. The `ImageViews` destructor nulls its vector entries the same
way, preserving the vector size. -/
theorem claim_C10_destroy_nulls_entries_but_not_swapchain (s : VulkanState) :
    (Legacy.destroySwapChain s).1.swapChainFrameBuffers =
      List.replicate s.swapChainFrameBuffers.length none ∧
    (Legacy.destroySwapChain s).1.swapChainImageViews =
      List.replicate s.swapChainImageViews.length none ∧
    (Legacy.destroySwapChain s).1.swapChainFrameBuffers.length =
      s.swapChainFrameBuffers.length ∧
    (Legacy.destroySwapChain s).1.swapChainImageViews.length =
      s.swapChainImageViews.length ∧
    (Legacy.destroySwapChain s).1.swapChain = s.swapChain ∧
    (imageViewsDtor s.swapChainImageViews).1 =
      List.replicate s.swapChainImageViews.length none := by
  simp [Legacy.destroySwapChain, imageViewsDtor, List.map_const']

end Vulkray
